import Mathlib

/-!
Verification of the nanotune tuning-orchestration core
(src/nanotune/device_tuner/tuner.py) against its natural-language
specification.

The Python code is shallowly embedded: gate state is a store mapping a
gate index to its value, context managers become explicit functions that
run a body and then run the restoration code of their finally blocks,
and Python exceptions are modelled with an explicit error component
(Option of an error type, or Except).  Voltages and ranges are modelled
as rationals.
-/

/-- Python runtime errors raised by the code under verification.
`typeError` models the TypeError raised by item assignment on a tuple,
`attributeError` an access to a missing attribute, `keyError` a missing
dict key, and `collaborator n` an error raised by an external
measurement collaborator (distinguishable by an index). -/
inductive PyErr where
  | typeError
  | attributeError
  | keyError
  | collaborator (n : ℕ)
deriving DecidableEq, Repr

/-- A store of per-gate values: gate index to current value.  Used for
dc voltages (value type rational) and current valid ranges (value type
pair of rationals). -/
def Store (α : Type) : Type := ℕ → α

/-- Write one gate value in a store (the setter primitive of a gate,
for example Gate.dc_voltage(v)). -/
def upd {α : Type} (s : Store α) (g : ℕ) (v : α) : Store α :=
  fun x => if x = g then v else s x

/-- Result of running a rollback scope: the final store, the error (if
any) observed by the caller of the with-block, and the list of
restoration writes that were actually performed, in order. -/
structure RbResult (α ε : Type) where
  store : Store α
  err : Option ε
  restoreTrace : List (ℕ × α)

/-- The finally-block loop of set_back_voltages / set_back_valid_ranges
(tuner.py lines 43-45 and 59-61): a plain for loop over the snapshot
pairs.  `fails g` says whether the hardware setter for gate `g` raises;
as in Python, the first raising setter aborts the loop, so the
remaining gates are not attempted. -/
def restoreLoop {α ε : Type} (fails : ℕ → Option ε) :
    List (ℕ × α) → Store α → Store α × Option ε × List (ℕ × α)
  | [], s => (s, none, [])
  | (g, v) :: rest, s =>
    match fails g with
    | some e => (s, some e, [])
    | none =>
      let r := restoreLoop fails rest (upd s g v)
      (r.1, r.2.1, (g, v) :: r.2.2)

/-- The generic rollback context manager (tuner.py lines 32-61): record
each listed gate value before the body, run the body (which may
mutate the store and may raise), then in the finally block restore the
snapshot in list order.  As in Python, an error raised during
restoration replaces the body error. -/
def scopedRollback {α ε : Type} (fails : ℕ → Option ε) (gates : List ℕ)
    (body : Store α → Store α × Option ε) (s : Store α) : RbResult α ε :=
  let initial := gates.map (fun g => (g, s g))
  let br := body s
  let rr := restoreLoop fails initial br.1
  ⟨rr.1, (rr.2.1).orElse (fun _ => br.2), rr.2.2⟩

/-- set_back_voltages (tuner.py lines 32-45): value-rollback scope over
dc voltages. -/
def set_back_voltages {ε : Type} (fails : ℕ → Option ε) (gates : List ℕ)
    (body : Store ℚ → Store ℚ × Option ε) (s : Store ℚ) : RbResult ℚ ε :=
  scopedRollback fails gates body s

/-- set_back_valid_ranges (tuner.py lines 48-61): range-rollback scope
over current valid ranges. -/
def set_back_valid_ranges {ε : Type} (fails : ℕ → Option ε) (gates : List ℕ)
    (body : Store (ℚ × ℚ) → Store (ℚ × ℚ) × Option ε) (s : Store (ℚ × ℚ)) :
    RbResult (ℚ × ℚ) ε :=
  scopedRollback fails gates body s

/-! Helper lemmas about the restoration loop. -/

/-- A gate that is not among the restored keys keeps its body-final
value, whether or not some restoration fails. -/
theorem restoreLoop_not_mem {α ε : Type} (fails : ℕ → Option ε) :
    ∀ (pairs : List (ℕ × α)) (t : Store α) (x : ℕ),
      x ∉ pairs.map Prod.fst → (restoreLoop fails pairs t).1 x = t x := by
  intro pairs
  induction pairs with
  | nil => intro t x _; rfl
  | cons p rest ih =>
    intro t x hx
    obtain ⟨g, v⟩ := p
    simp only [List.map_cons, List.mem_cons] at hx
    push_neg at hx
    show (restoreLoop fails ((g, v) :: rest) t).1 x = t x
    simp only [restoreLoop]
    cases h : fails g with
    | some e => rfl
    | none =>
      simp only []
      rw [ih (upd t g v) x hx.2]
      simp [upd, hx.1]

/-- When no restoration fails and every snapshot pair carries the value
`f` of its key, every restored key ends at `f` of that key. -/
theorem restoreLoop_mem {α ε : Type} (fails : ℕ → Option ε) (f : ℕ → α) :
    ∀ (pairs : List (ℕ × α)) (t : Store α),
      (∀ p ∈ pairs, fails p.1 = none) → (∀ p ∈ pairs, p.2 = f p.1) →
      ∀ x ∈ pairs.map Prod.fst, (restoreLoop fails pairs t).1 x = f x := by
  intro pairs
  induction pairs with
  | nil => intro t _ _ x hx; simp at hx
  | cons p rest ih =>
    intro t hnf hval x hx
    obtain ⟨g, v⟩ := p
    have hg : fails g = none := hnf (g, v) (List.mem_cons_self _ _)
    have hv : v = f g := hval (g, v) (List.mem_cons_self _ _)
    simp only [List.map_cons, List.mem_cons] at hx
    show (restoreLoop fails ((g, v) :: rest) t).1 x = f x
    simp only [restoreLoop, hg]
    by_cases hxr : x ∈ rest.map Prod.fst
    · exact ih (upd t g v) (fun p hp => hnf p (List.mem_cons_of_mem _ hp))
        (fun p hp => hval p (List.mem_cons_of_mem _ hp)) x hxr
    · rcases hx with hx | hx
      · rw [restoreLoop_not_mem fails rest (upd t g v) x hxr]
        simp [upd, hx, hv]
      · exact absurd hx hxr

/-- When no restoration fails, the restoration loop reports no error and
its trace is exactly the snapshot list, in order. -/
theorem restoreLoop_noFail {α ε : Type} (fails : ℕ → Option ε) :
    ∀ (pairs : List (ℕ × α)) (t : Store α),
      (∀ p ∈ pairs, fails p.1 = none) →
      (restoreLoop fails pairs t).2.1 = none ∧
        (restoreLoop fails pairs t).2.2 = pairs := by
  intro pairs
  induction pairs with
  | nil => intro t _; exact ⟨rfl, rfl⟩
  | cons p rest ih =>
    intro t hnf
    obtain ⟨g, v⟩ := p
    have hg : fails g = none := hnf (g, v) (List.mem_cons_self _ _)
    have hrest := ih (upd t g v) (fun p hp => hnf p (List.mem_cons_of_mem _ hp))
    show ((restoreLoop fails ((g, v) :: rest) t).2.1 = none ∧ _)
    simp only [restoreLoop, hg]
    exact ⟨hrest.1, by rw [hrest.2]⟩

/-- If the first restoration failure happens at gate `gbad` (all gates
before it restore fine), the loop stops there: the error is the setter
error of `gbad`, and only the gates before `gbad` were restored. -/
theorem restoreLoop_failAt {α ε : Type} (fails : ℕ → Option ε) (e : ε) :
    ∀ (pre : List (ℕ × α)) (gbad : ℕ) (v : α) (post : List (ℕ × α)) (t : Store α),
      (∀ p ∈ pre, fails p.1 = none) → fails gbad = some e →
      (restoreLoop fails (pre ++ (gbad, v) :: post) t).2.1 = some e ∧
        (restoreLoop fails (pre ++ (gbad, v) :: post) t).2.2 = pre := by
  intro pre
  induction pre with
  | nil =>
    intro gbad v post t _ hbad
    have hstep : restoreLoop fails ((gbad, v) :: post) t = (t, some e, []) := by
      simp only [restoreLoop, hbad]
    rw [List.nil_append, hstep]
    exact ⟨rfl, rfl⟩
  | cons p rest ih =>
    intro gbad v post t hnf hbad
    obtain ⟨g, w⟩ := p
    have hg : fails g = none := hnf (g, w) (List.mem_cons_self _ _)
    have hrest := ih gbad v post (upd t g w)
      (fun p hp => hnf p (List.mem_cons_of_mem _ hp)) hbad
    show ((restoreLoop fails (((g, w) :: rest) ++ (gbad, v) :: post) t).2.1 = some e ∧ _)
    simp only [List.cons_append, restoreLoop, hg, List.append_eq]
    exact ⟨hrest.1, by rw [hrest.2]⟩

/-- Claim C1: for every list of gates and every block executed inside a
value-rollback scope (set_back_voltages) or range-rollback scope
(set_back_valid_ranges), including a block that raises partway through
(arbitrary body, arbitrary body error), each gate observed value
(respectively range) after the scope exits equals the value it had
immediately before the scope was entered, and restoration is applied to
the gates in the same order as the input list.  The hypothesis says the
hardware setters themselves do not fail (setter failure is the subject
of claim C9). -/
theorem C1_rollback_restores_values_and_ranges {ε : Type}
    (gates : List ℕ) (fails : ℕ → Option ε)
    (hf : ∀ g ∈ gates, fails g = none)
    (bodyV : Store ℚ → Store ℚ × Option ε) (sV : Store ℚ)
    (bodyR : Store (ℚ × ℚ) → Store (ℚ × ℚ) × Option ε) (sR : Store (ℚ × ℚ)) :
    (∀ g ∈ gates, (set_back_voltages fails gates bodyV sV).store g = sV g) ∧
      (set_back_voltages fails gates bodyV sV).restoreTrace
        = gates.map (fun g => (g, sV g)) ∧
      (∀ g ∈ gates, (set_back_valid_ranges fails gates bodyR sR).store g = sR g) ∧
      (set_back_valid_ranges fails gates bodyR sR).restoreTrace
        = gates.map (fun g => (g, sR g)) := by
  have keymap : ∀ (α : Type) (f : ℕ → α),
      (gates.map (fun g => (g, f g))).map Prod.fst = gates := by
    intro α f
    rw [List.map_map]
    exact List.map_id gates
  have hpair : ∀ (α : Type) (f : ℕ → α) (p : ℕ × α),
      p ∈ gates.map (fun g => (g, f g)) → fails p.1 = none ∧ p.2 = f p.1 := by
    intro α f p hp
    rcases List.mem_map.mp hp with ⟨g, hg, hpg⟩
    constructor
    · rw [← hpg]; exact hf g hg
    · rw [← hpg]
  refine ⟨?_, ?_, ?_, ?_⟩
  · intro g hg
    exact restoreLoop_mem fails sV (gates.map (fun g => (g, sV g))) (bodyV sV).1
      (fun p hp => (hpair ℚ sV p hp).1) (fun p hp => (hpair ℚ sV p hp).2) g
      (by rw [keymap ℚ sV]; exact hg)
  · exact (restoreLoop_noFail fails (gates.map (fun g => (g, sV g))) (bodyV sV).1
      (fun p hp => (hpair ℚ sV p hp).1)).2
  · intro g hg
    exact restoreLoop_mem fails sR (gates.map (fun g => (g, sR g))) (bodyR sR).1
      (fun p hp => (hpair (ℚ × ℚ) sR p hp).1) (fun p hp => (hpair (ℚ × ℚ) sR p hp).2) g
      (by rw [keymap (ℚ × ℚ) sR]; exact hg)
  · exact (restoreLoop_noFail fails (gates.map (fun g => (g, sR g))) (bodyR sR).1
      (fun p hp => (hpair (ℚ × ℚ) sR p hp).1)).2

/-- A demonstration body for the C1 witness: sets gate 0 and gate 1 to
99 and then raises a body error. -/
def c1DemoBody : Store ℚ → Store ℚ × Option ℕ :=
  fun st => (upd (upd st 0 99) 1 99, some 3)

/-- A demonstration body on ranges for the C1 witness. -/
def c1DemoBodyR : Store (ℚ × ℚ) → Store (ℚ × ℚ) × Option ℕ :=
  fun st => (upd st 0 (5, 6), none)

/-- Witness for C1 at a concrete input: two gates initially at 3, body
mutates both and raises; both voltages read 3 afterwards and the
restoration trace lists gate 0 then gate 1. -/
theorem C1_rollback_restores_values_and_ranges_witness :
    (set_back_voltages (fun _ => (none : Option ℕ)) [0, 1] c1DemoBody
        (fun _ => (3 : ℚ))).store 0 = 3 ∧
      (set_back_voltages (fun _ => (none : Option ℕ)) [0, 1] c1DemoBody
        (fun _ => (3 : ℚ))).store 1 = 3 ∧
      (set_back_voltages (fun _ => (none : Option ℕ)) [0, 1] c1DemoBody
        (fun _ => (3 : ℚ))).restoreTrace = [(0, 3), (1, 3)] ∧
      (set_back_valid_ranges (fun _ => (none : Option ℕ)) [0, 1] c1DemoBodyR
        (fun _ => ((0 : ℚ), (1 : ℚ)))).store 0 = (0, 1) := by
  have h := C1_rollback_restores_values_and_ranges [0, 1]
    (fun _ => (none : Option ℕ)) (fun _ _ => rfl) c1DemoBody (fun _ => (3 : ℚ))
    c1DemoBodyR (fun _ => ((0 : ℚ), (1 : ℚ)))
  refine ⟨h.1 0 (by decide), h.1 1 (by decide), ?_, h.2.2.1 0 (by decide)⟩
  rw [h.2.1]
  rfl

/-- Setter-failure pattern for the C9 counterexample: restoring gate 0
raises error 7, restoring gate 1 would raise error 8 (so if it were
attempted and aggregated, error 8 would be reported too). -/
def c9Fails : ℕ → Option ℕ :=
  fun g => if g = 0 then some 7 else some 8

/-- Body for the C9 counterexample: sets gates 0 and 1 to 99, no body
error. -/
def c9Body : Store ℚ → Store ℚ × Option ℕ :=
  fun st => (upd (upd st 0 99) 1 99, none)

/-- Counterexample to claim C9 as stated: with gates [0, 1] initially at
0 and a body that sets both to 99, a failing restore of gate 0 aborts
the whole finally loop: gate 1 is left at 99 (its restoration is never
attempted, the trace of performed restorations is empty) and only the
first error (7) is reported, with no aggregation of the second. -/
theorem C9_counterexample :
    (set_back_voltages c9Fails [0, 1] c9Body (fun _ => (0 : ℚ))).store 1 = 99 ∧
      (set_back_voltages c9Fails [0, 1] c9Body (fun _ => (0 : ℚ))).restoreTrace = [] ∧
      (set_back_voltages c9Fails [0, 1] c9Body (fun _ => (0 : ℚ))).err = some 7 := by
  refine ⟨by decide, rfl, rfl⟩

/-- Claim C9, amended: when restoring a gate raises, the rollback loop
stops at that gate: the gates before it in the list have been restored
(the trace is exactly the prefix before the failing gate), the gates
after it are not attempted, and the single setter error propagates,
replacing any body error; errors are not aggregated. -/
theorem C9_amended_restore_failure_aborts {α ε : Type}
    (pre post : List ℕ) (gbad : ℕ) (fails : ℕ → Option ε) (e : ε)
    (hpre : ∀ g ∈ pre, fails g = none) (hbad : fails gbad = some e)
    (body : Store α → Store α × Option ε) (s : Store α) :
    (scopedRollback fails (pre ++ gbad :: post) body s).err = some e ∧
      (scopedRollback fails (pre ++ gbad :: post) body s).restoreTrace
        = pre.map (fun g => (g, s g)) := by
  have hsnap : (pre ++ gbad :: post).map (fun g => (g, s g))
      = pre.map (fun g => (g, s g))
        ++ (gbad, s gbad) :: post.map (fun g => (g, s g)) := by
    simp
  have hpre2 : ∀ p ∈ pre.map (fun g => (g, s g)), fails p.1 = none := by
    intro p hp
    rcases List.mem_map.mp hp with ⟨g, hg, hpg⟩
    rw [← hpg]
    exact hpre g hg
  have h := restoreLoop_failAt fails e (pre.map (fun g => (g, s g))) gbad (s gbad)
    (post.map (fun g => (g, s g))) (body s).1 hpre2 hbad
  constructor
  · show ((restoreLoop fails ((pre ++ gbad :: post).map (fun g => (g, s g)))
      (body s).1).2.1).orElse _ = some e
    rw [hsnap, h.1]
    rfl
  · show (restoreLoop fails ((pre ++ gbad :: post).map (fun g => (g, s g)))
      (body s).1).2.2 = _
    rw [hsnap, h.2]

/-- Setter-failure pattern for the witness of the amended C9: only the
restore of gate 0 raises (error 7). -/
def c9wFails : ℕ → Option ℕ :=
  fun g => if g = 0 then some 7 else none

/-- Witness for the amended C9 at a concrete input: gates [2, 0, 5],
restoring gate 0 fails with error 7; the error surfaces, and exactly
gate 2 (the prefix) was restored. -/
theorem C9_amended_restore_failure_aborts_witness :
    (scopedRollback c9wFails ([2] ++ 0 :: [5]) c9Body (fun _ => (4 : ℚ))).err = some 7 ∧
      (scopedRollback c9wFails ([2] ++ 0 :: [5]) c9Body
        (fun _ => (4 : ℚ))).restoreTrace = [(2, 4)] := by
  have h := C9_amended_restore_failure_aborts [2] [5] 0 c9wFails 7
    (by decide) (by decide) c9Body (fun _ => (4 : ℚ))
  exact ⟨h.1, by rw [h.2]; rfl⟩

/-! The data-settings bundle and the device-specific settings overlay
(tuner.py lines 375-388 and 398-403). -/

/-- The data_settings bundle: a dict from setting name to an opaque
payload value.  A key that is absent maps to none. -/
def Settings (α : Type) : Type := String → Option α

/-- Python dict.update: keys of `new` overwrite, other keys of `d`
survive. -/
def dictUpdate {α : Type} (d new : Settings α) : Settings α :=
  fun k => (new k).orElse (fun _ => d k)

/-- update_data_settings (tuner.py lines 402-403): the set command of
the data_settings parameter merges the argument into the current bundle
with dict.update; it does not replace the bundle. -/
def update_data_settings {α : Type} (cur new : Settings α) : Settings α :=
  dictUpdate cur new

/-- The one-key dict passed by the overlay (tuner.py lines 382-384). -/
def normConstsOverlay {α : Type} (v : α) : Settings α :=
  fun k => if k = "normalization_constants" then some v else none

/-- device_specific_settings (tuner.py lines 375-388): deep-copy the
current bundle, merge in the normalization-constants entry of the
device, run the body, and in the finally block write the saved copy
back — through the same update_data_settings set command, hence by
dict.update, not by replacement. -/
def device_specific_settings {α ε : Type} (consts : α)
    (body : Settings α → Settings α × Option ε) (s : Settings α) :
    Settings α × Option ε :=
  let original := s
  let r := body (update_data_settings s (normConstsOverlay consts))
  (update_data_settings r.1 original, r.2)

/-- A concrete data-settings bundle for the C3 counterexample: only
db_name is set; no normalization_constants entry. -/
def c3Demo : Settings ℕ :=
  fun k => if k = "db_name" then some 1 else none

/-- Counterexample to claim C3 as stated: with a bundle that has no
normalization_constants entry and a body that performs no further
settings mutation (and raises no error), the entry injected by the
overlay is still present after the scope exits, because the finally
block restores via dict.update, which never removes a key.  So the
observed bundle after the scope differs from the bundle before it. -/
theorem C3_counterexample :
    (device_specific_settings 7 (fun st => (st, (none : Option ℕ))) c3Demo).1
        "normalization_constants" = some 7 ∧
      c3Demo "normalization_constants" = none := by
  constructor
  · rfl
  · rfl

/-- Claim C3, amended: for every call that opens the overlay with a
body that leaves the bundle as injected, after the scope exits (whether
the body raised or not) every key that was present before the scope has
its pre-scope value again, but the injected normalization-constants
entry remains present afterwards (with the device constants) whenever
it was absent before: the restore-by-update leaks exactly that key.
The error observed by the caller is the body error. -/
theorem C3_amended_overlay_leaks_injected_key {α ε : Type} (consts : α)
    (body : Settings α → Settings α × Option ε) (s : Settings α)
    (hbody : ∀ st, (body st).1 = st) :
    (∀ k, s k ≠ none →
      (device_specific_settings consts body s).1 k = s k) ∧
      (s "normalization_constants" = none →
        (device_specific_settings consts body s).1 "normalization_constants"
          = some consts) ∧
      (device_specific_settings consts body s).2
        = (body (update_data_settings s (normConstsOverlay consts))).2 := by
  refine ⟨?_, ?_, rfl⟩
  · intro k hk
    show (update_data_settings
      (body (update_data_settings s (normConstsOverlay consts))).1 s) k = s k
    rw [hbody]
    cases hsk : s k with
    | none => exact absurd hsk hk
    | some v => simp [update_data_settings, dictUpdate, hsk]
  · intro hnc
    show (update_data_settings
      (body (update_data_settings s (normConstsOverlay consts))).1 s)
        "normalization_constants" = some consts
    rw [hbody]
    simp [update_data_settings, dictUpdate, normConstsOverlay, hnc]

/-- Witness for the amended C3 at a concrete input: db_name keeps its
pre-scope value 1 across the scope, and the normalization_constants
entry (absent before) is present with the device constants 7 after the
scope exits. -/
theorem C3_amended_overlay_leaks_injected_key_witness :
    (device_specific_settings 7 (fun st => (st, (none : Option ℕ))) c3Demo).1
        "db_name" = c3Demo "db_name" ∧
      (device_specific_settings 7 (fun st => (st, (none : Option ℕ))) c3Demo).1
        "normalization_constants" = some 7 := by
  have h := C3_amended_overlay_leaks_injected_key 7
    (fun st => (st, (none : Option ℕ))) c3Demo (fun _ => rfl)
  exact ⟨h.1 "db_name" (by decide), h.2.1 (by decide)⟩

/-! measure_initial_ranges (tuner.py lines 277-373): scenario, forward
scan, step sequence, and the runtime type errors of the source. -/

/-- Python dict lookup in an association list (insertion-ordered). -/
def dget (d : List (ℕ × Bool)) (key : ℕ) : Option Bool :=
  (d.find? (fun p => p.1 = key)).map Prod.snd

/-- Python dict assignment: overwrite an existing key in place, append
a missing key at the end. -/
def dset (d : List (ℕ × Bool)) (key : ℕ) (b : Bool) : List (ℕ × Bool) :=
  if (d.find? (fun p => p.1 = key)).isSome then
    d.map (fun p => if p.1 = key then (p.1, b) else p)
  else d ++ [(key, b)]

/-- dict.fromkeys(keys, False) (tuner.py line 294): one entry per key,
all False, insertion order of first occurrence. -/
def dictFromKeysFalse (keys : List ℕ) : List (ℕ × Bool) :=
  keys.foldl (fun d k => dset d k false) []

/-- One TuningResult entry as far as these claims need it: which sweep
gate the entry is about (the entry name is characterization_<gate>) and
the success flag recorded. -/
structure Entry where
  gate : ℕ
  success : Bool
deriving DecidableEq, Repr

/-- State of the forward scan: the skip_gates dict (keyed by layout id,
line 294), the last responding gate position (line 329, an int in the
source), the TuningResult entries recorded so far, and the driving
gate dc voltage. -/
structure FwdSt where
  skip : List (ℕ × Bool)
  lastGate : Option ℕ
  entries : List Entry
  vDriv : ℚ
deriving DecidableEq, Repr

/-- A call scenario for measure_initial_ranges: the number of gates to
sweep, their layout ids (line 293), the driving gate safety range, the
voltage step, the sweep collaborator outcome per (step index, gate
position), and whether a pinchoff classifier is registered. -/
structure MIRScenario where
  k : ℕ
  layoutIds : List ℕ
  drivSafety : ℚ × ℚ
  voltage_step : ℚ
  stageSuccess : ℕ → ℕ → Bool
  hasPinchoff : Bool

/-- n_steps (tuner.py line 297): abs(v_range[0] - v_range[1]) divided
by voltage_step, a float with no rounding in the source. -/
def n_steps (sc : MIRScenario) : ℚ :=
  |sc.drivSafety.1 - sc.drivSafety.2| / sc.voltage_step

/-- np.linspace(start, stop, num) under the legacy numpy semantics the
source relies on: the float num is truncated to an integer point count
(int(num)); the points are evenly spaced with both endpoints included
when the count is at least 2.  (Current numpy instead rejects a float
num with a TypeError; under that semantics line 303 itself raises.
The truncating semantics is the only one under which the scan runs, so
it is the one embedded.) -/
def linspace (a b : ℚ) (num : ℚ) : List ℚ :=
  let n : ℕ := (Int.floor num).toNat
  if n = 0 then []
  else if n = 1 then [a]
  else (List.range n).map (fun (i : ℕ) => a + ((i : ℚ) * (b - a)) / ((n : ℚ) - 1))

/-- The forward-scan step sequence (tuner.py line 303): from the safety
maximum down to the safety minimum in n_steps points. -/
def fwdSteps (sc : MIRScenario) : List ℚ :=
  linspace (max sc.drivSafety.1 sc.drivSafety.2)
    (min sc.drivSafety.1 sc.drivSafety.2) (n_steps sc)

/-- Inner loop of the forward scan (tuner.py lines 307-329): for each
gate position gid in order, look up skip_gates[gid] — the dict is keyed
by layout id, so a position that is not a layout id raises KeyError —
and if not skipped run one sweep, record the entry, and on success mark
the gate skipped and remember it as last_gate. -/
def innerLoopAux (sc : MIRScenario) (stepIdx : ℕ) :
    List ℕ → FwdSt → Except PyErr FwdSt
  | [], st => .ok st
  | gid :: rest, st =>
    match dget st.skip gid with
    | none => .error .keyError
    | some true => innerLoopAux sc stepIdx rest st
    | some false =>
      let succ := sc.stageSuccess stepIdx gid
      innerLoopAux sc stepIdx rest
        { st with
          entries := st.entries ++ [⟨gid, succ⟩],
          skip := if succ then dset st.skip gid true else st.skip,
          lastGate := if succ then some gid else st.lastGate }

/-- One forward-scan step over all gate positions 0..k-1. -/
def innerLoop (sc : MIRScenario) (stepIdx : ℕ) (st : FwdSt) :
    Except PyErr FwdSt :=
  innerLoopAux sc stepIdx (List.range sc.k) st

/-- The forward scan over the enumerated step values (tuner.py lines
304-332): at each step set the driving gate, run the inner loop, and
break as soon as every skip flag is True. -/
def forwardAux (sc : MIRScenario) :
    List (ℕ × ℚ) → FwdSt → Except PyErr FwdSt
  | [], st => .ok st
  | (i, v) :: rest, st =>
    match innerLoop sc i { st with vDriv := v } with
    | .error e => .error e
    | .ok st1 =>
      if (st1.skip.map Prod.snd).all (fun b => b) then .ok st1
      else forwardAux sc rest st1

/-- The full forward scan, starting after all_gates_to_highest (line
290) with the driving gate at its safety maximum and all skip flags
False. -/
def forwardScan (sc : MIRScenario) : Except PyErr FwdSt :=
  forwardAux sc (fwdSteps sc).enum
    ⟨dictFromKeysFalse sc.layoutIds, none, [],
      max sc.drivSafety.1 sc.drivSafety.2⟩

/-- measure_initial_ranges (tuner.py lines 277-373).  Line 286 raises
KeyError when no pinchoff classifier is registered.  Lines 299-333:
init_range_gate_to_set is the tuple (None, None), so after the forward
scan completes the assignment init_range_gate_to_set[0] = ... at line
333 raises TypeError (tuples do not support item assignment); nothing
after it, in particular the whole reverse probe (lines 337-369), is
reachable, and no range or TuningResult is ever returned. -/
def measure_initial_ranges (sc : MIRScenario) :
    Except PyErr ((Option ℚ × Option ℚ) × List Entry) :=
  if ¬ sc.hasPinchoff then .error .keyError
  else
    match forwardScan sc with
    | .error e => .error e
    | .ok _ => .error .typeError

/-- Python round-half-to-even on an exact rational. -/
def roundHalfEven (x : ℚ) : ℤ :=
  let n := Int.floor x
  let f := x - (n : ℚ)
  if f < 1 / 2 then n
  else if 1 / 2 < f then n + 1
  else if n % 2 = 0 then n else n + 1

/-- round(x, 2) of the source (tuner.py line 366), on exact rationals. -/
def pyRound2 (x : ℚ) : ℚ :=
  ((roundHalfEven (x * 100) : ℚ)) / 100

/-- The upper-bound computation of the reverse probe (tuner.py lines
365-368), as a pure function of the reported low_voltage feature and
the safety minimum used for clamping: L is lowered by ten percent of
its magnitude, rounded to two decimals, and clamped from below.  In the
source this code is unreachable (line 333 raises first) and the clamp
reads self.top_barrier.safety_range()[0], an attribute no Tuner
defines. -/
def reverseClamp (low_voltage min_rng : ℚ) : ℚ :=
  max min_rng (pyRound2 (low_voltage - (1 / 10) * |low_voltage|))

/-- Scenario for C4: two sweep gates with layout ids 0 and 1 (the only
ids under which the skip dict lookups succeed), driving safety range
(-2, 0), step 1/2 (so 4 scan steps 0, -2/3, -4/3, -2); gate 0 first
succeeds at step 1, gate 1 first succeeds at step 2. -/
def mirA : MIRScenario :=
  { k := 2, layoutIds := [0, 1], drivSafety := (-2, 0), voltage_step := 1 / 2,
    stageSuccess := fun i g => decide ((g = 0 ∧ 1 ≤ i) ∨ (g = 1 ∧ 2 ≤ i)),
    hasPinchoff := true }

/-- Scenario for the C4 edge case: both gates respond at the very first
step. -/
def mirB : MIRScenario :=
  { mirA with stageSuccess := fun _ _ => true }

/-- Scenario with realistic (1-based) layout ids: the skip dict is
keyed by ids 1 and 2 but indexed with positions 0 and 1. -/
def mirC : MIRScenario :=
  { mirA with layoutIds := [1, 2] }

/-- Evaluating linspace at an integer point count of at least 2. -/
theorem linspace_natCast (a b : ℚ) (n : ℕ) (h2 : 2 ≤ n) :
    linspace a b (n : ℚ)
      = (List.range n).map (fun (i : ℕ) => a + ((i : ℚ) * (b - a)) / ((n : ℚ) - 1)) := by
  have hn : (Int.floor ((n : ℚ))).toNat = n := by simp
  unfold linspace
  rw [hn]
  rw [if_neg (by omega), if_neg (by omega)]

/-- The step sequence of scenarios mirA, mirB and mirC: safety range
(-2, 0) at step 1/2 gives int(4.0) = 4 linearly spaced values from the
maximum 0 down to the minimum -2. -/
theorem fwdSteps_mirA : fwdSteps mirA = [0, -2 / 3, -4 / 3, -2] := by
  have h1 : n_steps mirA = ((4 : ℕ) : ℚ) := by norm_num [n_steps, mirA]
  have h2 : max mirA.drivSafety.1 mirA.drivSafety.2 = 0 := by norm_num [mirA]
  have h3 : min mirA.drivSafety.1 mirA.drivSafety.2 = -2 := by norm_num [mirA]
  rw [fwdSteps, h1, h2, h3, linspace_natCast 0 (-2) 4 (by omega)]
  norm_num [List.range_succ]

/-- Claim C4, behaviour at the failing input: with dependent gates
responding first at steps 1 and 2, the forward scan stops exactly at
step max(1,2) = 2 — not earlier (attempts are recorded at steps 0, 1
and 2: five entries) and not later (the step list has 4 steps,
exhibited explicitly) — with the driving gate at the step-2 value -4/3;
in the edge scenario where both gates respond at the first step the
scan stops at step 0 with the driving gate still at the safety maximum
0, the first step value.  But measure_initial_ranges never returns this
lower bound: line 333 assigns it into the tuple (None, None) and raises
TypeError.  Moreover with layout ids other than the gate positions
(here 1 and 2, as in a 1-based device layout) the scan itself raises
KeyError at the first skip_gates lookup. -/
theorem C4_scan_stops_at_max_step_but_bound_never_returned :
    forwardScan mirA = .ok
        ⟨[(0, true), (1, true)], some 1,
          [⟨0, false⟩, ⟨1, false⟩, ⟨0, true⟩, ⟨1, false⟩, ⟨1, true⟩],
          -4 / 3⟩ ∧
      fwdSteps mirA = [0, -2 / 3, -4 / 3, -2] ∧
      forwardScan mirB = .ok
        ⟨[(0, true), (1, true)], some 1, [⟨0, true⟩, ⟨1, true⟩], 0⟩ ∧
      forwardScan mirC = .error .keyError ∧
      measure_initial_ranges mirA = .error .typeError := by
  have hA : forwardScan mirA = .ok
      ⟨[(0, true), (1, true)], some 1,
        [⟨0, false⟩, ⟨1, false⟩, ⟨0, true⟩, ⟨1, false⟩, ⟨1, true⟩],
        -4 / 3⟩ := by
    rw [forwardScan, fwdSteps_mirA]
    simp only [List.enum]
    norm_num [forwardAux, innerLoop, innerLoopAux, dget, dset, dictFromKeysFalse,
      mirA, List.enumFrom, List.find?, List.range_succ, List.foldl]
  have hB : forwardScan mirB = .ok
      ⟨[(0, true), (1, true)], some 1, [⟨0, true⟩, ⟨1, true⟩], 0⟩ := by
    have hsB : fwdSteps mirB = [0, -2 / 3, -4 / 3, -2] := fwdSteps_mirA
    rw [forwardScan, hsB]
    simp only [List.enum]
    norm_num [forwardAux, innerLoop, innerLoopAux, dget, dset, dictFromKeysFalse,
      mirB, mirA, List.enumFrom, List.find?, List.range_succ, List.foldl]
  have hC : forwardScan mirC = .error .keyError := by
    have hsC : fwdSteps mirC = [0, -2 / 3, -4 / 3, -2] := fwdSteps_mirA
    rw [forwardScan, hsC]
    simp only [List.enum]
    norm_num [forwardAux, innerLoop, innerLoopAux, dget, dset, dictFromKeysFalse,
      mirC, mirA, List.enumFrom, List.find?, List.range_succ, List.foldl]
  refine ⟨hA, fwdSteps_mirA, hB, hC, ?_⟩
  rw [measure_initial_ranges, if_neg (by norm_num [mirA]), hA]

/-- The linspace point count is the truncated num, whatever the
endpoints. -/
theorem linspace_length (a b num : ℚ) :
    (linspace a b num).length = (Int.floor num).toNat := by
  unfold linspace
  by_cases h0 : (Int.floor num).toNat = 0
  · simp [h0]
  · by_cases h1 : (Int.floor num).toNat = 1
    · simp [h0, h1]
    · rw [if_neg h0, if_neg h1, List.length_map, List.length_range]

/-- Scenario for C5: driving safety range (0, 1) and voltage_step 2/5,
so the exact step ratio is 5/2. -/
def mirC5 : MIRScenario :=
  { k := 1, layoutIds := [0], drivSafety := (0, 1), voltage_step := 2 / 5,
    stageSuccess := fun _ _ => false, hasPinchoff := true }

/-- Counterexample to claim C5 as stated: for safety-range width 1 and
step 2/5 the ratio is 5/2; the claimed count ceil(5/2) = 3, but the
code truncates: the forward scan has 2 steps, not 3. -/
theorem C5_counterexample :
    ((fwdSteps mirC5).length : ℤ) ≠ Int.ceil (n_steps mirC5) ∧
      (fwdSteps mirC5).length = 2 ∧
      Int.ceil (n_steps mirC5) = 3 := by
  have hq : n_steps mirC5 = 5 / 2 := by norm_num [n_steps, mirC5]
  have hlen : (fwdSteps mirC5).length = 2 := by
    rw [fwdSteps, hq, linspace_length]
    have hf : Int.floor ((5 : ℚ) / 2) = 2 := by norm_num
    rw [hf]
    rfl
  have hceil : Int.ceil (n_steps mirC5) = 3 := by
    rw [hq, Int.ceil_eq_iff]
    norm_num
  refine ⟨?_, hlen, hceil⟩
  rw [hlen, hceil]
  decide

/-- Claim C5, amended: the number of forward-scan steps equals the
truncation floor(|safety range| / voltage_step) of the exact ratio
(the source computes the ratio with no rounding and the legacy
linspace truncates the float count); no ceiling is applied, and when
the ratio is not an integer the count is strictly smaller than the
ceiling the claim asserts. -/
theorem C5_amended_step_count_truncates (sc : MIRScenario)
    (h : 0 < sc.voltage_step) :
    (((fwdSteps sc).length : ℤ) = Int.floor (n_steps sc)) ∧
      ((∀ z : ℤ, n_steps sc ≠ (z : ℚ)) →
        ((fwdSteps sc).length : ℤ) < Int.ceil (n_steps sc)) := by
  have hq0 : 0 ≤ n_steps sc := by
    unfold n_steps
    positivity
  have hlen : ((fwdSteps sc).length : ℤ) = Int.floor (n_steps sc) := by
    rw [fwdSteps, linspace_length]
    exact Int.toNat_of_nonneg (Int.floor_nonneg.mpr hq0)
  refine ⟨hlen, ?_⟩
  intro hnint
  rw [hlen]
  have hlt : ((Int.floor (n_steps sc) : ℚ)) < n_steps sc := by
    rcases lt_or_eq_of_le (Int.floor_le (n_steps sc)) with hlt | heq
    · exact hlt
    · exact absurd heq.symm (hnint (Int.floor (n_steps sc)))
  exact Int.lt_ceil.mpr hlt

/-- Witness for the amended C5 at the concrete mirC5 scenario: the scan
has 2 = floor(5/2) steps, strictly below ceil(5/2) = 3. -/
theorem C5_amended_step_count_truncates_witness :
    (((fwdSteps mirC5).length : ℤ) = Int.floor (n_steps mirC5)) ∧
      ((fwdSteps mirC5).length : ℤ) < Int.ceil (n_steps mirC5) := by
  have h := C5_amended_step_count_truncates mirC5 (by norm_num [mirC5])
  refine ⟨h.1, h.2 ?_⟩
  intro z hz
  rw [(by norm_num [n_steps, mirC5] : n_steps mirC5 = 5 / 2)] at hz
  have h5 : (5 : ℚ) = 2 * (z : ℚ) := by linarith [hz]
  have h5z : (5 : ℤ) = 2 * z := by exact_mod_cast h5
  omega

/-- Scenario for C6 and C7: one sweep gate (layout id 0), driving
safety range (-1, 0), step 1/2 (2 scan steps), and a sweep collaborator
that never reports success, so nothing ever responds. -/
def mirNoRespond : MIRScenario :=
  { k := 1, layoutIds := [0], drivSafety := (-1, 0), voltage_step := 1 / 2,
    stageSuccess := fun _ _ => false, hasPinchoff := true }

/-- The forward scan of mirNoRespond exhausts its 2 steps with no
success recorded and no gate marked responded. -/
theorem forwardScan_mirNoRespond :
    forwardScan mirNoRespond
      = .ok ⟨[(0, false)], none, [⟨0, false⟩, ⟨0, false⟩], -1⟩ := by
  have h1 : n_steps mirNoRespond = ((2 : ℕ) : ℚ) := by
    norm_num [n_steps, mirNoRespond]
  have hsteps : fwdSteps mirNoRespond = [0, -1] := by
    have h2 : max mirNoRespond.drivSafety.1 mirNoRespond.drivSafety.2 = 0 := by
      norm_num [mirNoRespond]
    have h3 : min mirNoRespond.drivSafety.1 mirNoRespond.drivSafety.2 = -1 := by
      norm_num [mirNoRespond]
    rw [fwdSteps, h1, h2, h3, linspace_natCast 0 (-1) 2 (by omega)]
    norm_num [List.range_succ]
  rw [forwardScan, hsteps]
  simp only [List.enum]
  norm_num [forwardAux, innerLoop, innerLoopAux, dget, dset, dictFromKeysFalse,
    mirNoRespond, List.enumFrom, List.find?, List.range_succ, List.foldl]

/-- Counterexample to claim C6 as stated: in a run in which no sweep
ever succeeds (so a reverse probe certainly never sees a success), the
call does not fail with a range-discovery-exhausted error carrying the
partial TuningResult: it raises a bare TypeError at line 333 (the
lower-bound tuple assignment), before the reverse probe even starts,
and no such exhausted-error condition exists anywhere in the code. -/
theorem C6_counterexample :
    measure_initial_ranges mirNoRespond = .error .typeError := by
  rw [measure_initial_ranges, if_neg (by norm_num [mirNoRespond]),
    forwardScan_mirNoRespond]

/-- Claim C6, amended: whenever the forward scan itself completes (in
particular in every run that would go on to an exhausted reverse
probe), measure_initial_ranges raises TypeError at the tuple assignment
of line 333: the reverse probe is unreachable, no range-discovery-
exhausted error is ever surfaced, and the partial TuningResult is lost
with the exception rather than attached to it. -/
theorem C6_amended_typeerror_precedes_reverse_probe (sc : MIRScenario)
    (hp : sc.hasPinchoff = true) (st : FwdSt)
    (hscan : forwardScan sc = .ok st) :
    measure_initial_ranges sc = .error .typeError := by
  rw [measure_initial_ranges, if_neg (by rw [hp]; exact fun h => h rfl), hscan]

/-- Scenario for the C6 witness: as mirNoRespond but the gate responds
immediately at the first step. -/
def mirRespondNow : MIRScenario :=
  { mirNoRespond with stageSuccess := fun _ _ => true }

/-- The forward scan of mirRespondNow stops at the first step. -/
theorem forwardScan_mirRespondNow :
    forwardScan mirRespondNow = .ok ⟨[(0, true)], some 0, [⟨0, true⟩], 0⟩ := by
  have h1 : n_steps mirRespondNow = ((2 : ℕ) : ℚ) := by
    norm_num [n_steps, mirRespondNow, mirNoRespond]
  have hsteps : fwdSteps mirRespondNow = [0, -1] := by
    have h2 : max mirRespondNow.drivSafety.1 mirRespondNow.drivSafety.2 = 0 := by
      norm_num [mirRespondNow, mirNoRespond]
    have h3 : min mirRespondNow.drivSafety.1 mirRespondNow.drivSafety.2 = -1 := by
      norm_num [mirRespondNow, mirNoRespond]
    rw [fwdSteps, h1, h2, h3, linspace_natCast 0 (-1) 2 (by omega)]
    norm_num [List.range_succ]
  rw [forwardScan, hsteps]
  simp only [List.enum]
  norm_num [forwardAux, innerLoop, innerLoopAux, dget, dset, dictFromKeysFalse,
    mirRespondNow, mirNoRespond, List.enumFrom, List.find?, List.range_succ,
    List.foldl]

/-- Witness for the amended C6 at a concrete input: a run whose forward
scan completes at the first step still ends in the line-333 TypeError. -/
theorem C6_amended_typeerror_precedes_reverse_probe_witness :
    measure_initial_ranges mirRespondNow = .error .typeError :=
  C6_amended_typeerror_precedes_reverse_probe mirRespondNow rfl
    ⟨[(0, true)], some 0, [⟨0, true⟩], 0⟩ forwardScan_mirRespondNow

/-- Claim C7, behaviour at the failing input: the clamp formula of
lines 365-368, taken as the pure function reverseClamp of the reported
low-voltage feature and the clamping safety minimum, does yield exactly
-4 for feature -5 and minimum -4, as the claim computes; but
measure_initial_ranges never executes it: every run that reaches the
reverse probe has already raised TypeError at line 333 (shown here on
the concrete no-success scenario), and the minimum used at line 367 is
read from self.top_barrier, an attribute a Tuner does not define, not
from the driving gate. -/
theorem C7_clamp_formula_unreachable :
    reverseClamp (-5) (-4) = -4 ∧
      measure_initial_ranges mirNoRespond = .error .typeError := by
  constructor
  · have habs : |(-5 : ℚ)| = 5 := by norm_num
    have harg : (-5 : ℚ) - (1 / 10) * |(-5 : ℚ)| = -11 / 2 := by
      rw [habs]; norm_num
    have harg2 : ((-11 / 2 : ℚ) * 100) = ((-550 : ℤ) : ℚ) := by norm_num
    have hfloor : Int.floor ((-11 / 2 : ℚ) * 100) = -550 := by
      rw [harg2, Int.floor_intCast]
    have hround : roundHalfEven ((-11 / 2 : ℚ) * 100) = -550 := by
      unfold roundHalfEven
      rw [hfloor]
      rw [if_pos (by norm_num)]
    unfold reverseClamp pyRound2
    rw [harg, hround]
    norm_num
  · rw [measure_initial_ranges, if_neg (by norm_num [mirNoRespond]),
      forwardScan_mirNoRespond]

/-! update_normalization_constants (tuner.py lines 143-168). -/

/-- The device state update_normalization_constants works on: gate
count, per-gate dc voltages and safety ranges, the readout-method keys,
the measurement collaborator (a reading for a channel, as a function of
the current gate voltages, which may raise), and the stored
normalization constants. -/
structure NCDevice where
  nGates : ℕ
  voltages : Store ℚ
  safety : ℕ → ℚ × ℚ
  readoutKeys : List String
  measurement_parameters : Store ℚ → String → Except PyErr ℚ
  normConsts : List (String × ℚ × ℚ)

/-- The body of the with set_back_voltages block of
update_normalization_constants (tuner.py lines 157-166).  Line 154
builds normalization_constants = dict.fromkeys(keys, (0.0, 1.0)): every
key shares the single immutable tuple (0.0, 1.0).  The body drives all
gates to their lowest safety extreme (line 158) and reads the first
channel (line 160); if that read raises, the error propagates; if it
succeeds, line 161 normalization_constants[key][0] = val is an item
assignment on the shared tuple and raises TypeError.  With no readout
keys both loops are empty and the body ends at the highest extreme
(line 163) with no error. -/
def ncBody (d : NCDevice) : Store ℚ → Store ℚ × Option PyErr :=
  fun _ =>
    match d.readoutKeys with
    | [] => ((fun g => (d.safety g).2), none)
    | k :: _ =>
      let low : Store ℚ := fun g => (d.safety g).1
      match d.measurement_parameters low k with
      | .error e => (low, some e)
      | .ok _ => (low, some PyErr.typeError)

/-- update_normalization_constants (tuner.py lines 143-168): run the
body under set_back_voltages over all device gates (the finally block
restores every dc voltage), then — only when no error escaped — commit
the constants at line 168.  Because of the shared-tuple TypeError the
no-error case only happens with zero readout channels, where the
committed dict is empty, wiping the prior constants. -/
def update_normalization_constants (d : NCDevice) : NCDevice × Option PyErr :=
  let r := set_back_voltages (fun _ => (none : Option PyErr)) (List.range d.nGates)
    (ncBody d) d.voltages
  match r.err with
  | some e => ({ d with voltages := r.store }, some e)
  | none => ({ d with voltages := r.store, normConsts := [] }, none)

/-- A two-gate device with one readout channel whose reads always
succeed (value 17), prior constants (2, 5). -/
def ncDemo : NCDevice :=
  { nGates := 2, voltages := fun _ => 0, safety := fun _ => (-3, 3),
    readoutKeys := ["dc_current"],
    measurement_parameters := fun _ _ => .ok 17,
    normConsts := [("dc_current", 2, 5)] }

/-- The same device with a collaborator whose reads raise. -/
def ncDemoFail : NCDevice :=
  { ncDemo with measurement_parameters := fun _ _ => .error (.collaborator 0) }

/-- Claim C2, behaviour at the failing input: on a device with one
readout channel whose reads all succeed, update_normalization_constants
does not commit the (min, max) pair — it raises TypeError at the first
tuple item assignment (line 161), leaving the prior constants (2, 5)
untouched (and the gate voltages restored by the rollback scope).  The
error-path half of the claim does hold: when the collaborator read
fails, the prior constants are also left untouched and the gates are
restored.  In no case with at least one channel are constants ever
written. -/
theorem C2_update_normalization_constants_never_commits :
    (update_normalization_constants ncDemo).2 = some PyErr.typeError ∧
      (update_normalization_constants ncDemo).1.normConsts
        = [("dc_current", 2, 5)] ∧
      (update_normalization_constants ncDemo).1.voltages 0 = 0 ∧
      (update_normalization_constants ncDemo).1.voltages 1 = 0 ∧
      (update_normalization_constants ncDemoFail).2 = some (PyErr.collaborator 0) ∧
      (update_normalization_constants ncDemoFail).1.normConsts
        = [("dc_current", 2, 5)] ∧
      (update_normalization_constants ncDemoFail).1.voltages 0 = 0 := by
  refine ⟨rfl, rfl, by decide, by decide, rfl, rfl, by decide⟩

/-! getting_signal (tuner.py lines 202-225). -/

/-- The device state getting_signal consults: the readout-method keys,
whether each readout entry is a qcodes Parameter, and the raw reading
of each channel. -/
structure SPDevice where
  channels : List String
  isParam : String → Bool
  raw : String → ℚ

/-- The attributes a Tuner instance owns: the classifiers dict (only
its pinchoff membership matters here), and the three parameters added
in __init__ (tuner.py lines 109-141): data_settings, fit_options and
setpoint_settings.  There is no normalization_constants attribute or
parameter. -/
structure TunerSt where
  hasPinchoffClassifier : Bool
  dataSettings : Settings ℕ
  fitOptionsTag : ℕ
  setpointSettingsTag : ℕ

/-- getting_signal (tuner.py lines 202-225).  Line 209 sets have_signal
= False; line 210 evaluates self.normalization_constants() — but a
Tuner defines no attribute, parameter or method of that name (the
constants live on the device), so the call raises AttributeError
before any channel is read. -/
def getting_signal (_t : TunerSt) (_dev : SPDevice)
    (_thresholds : String → ℚ) (_channelsToCheck : Option (List String)) :
    Except PyErr Bool :=
  .error .attributeError

/-- The per-channel loop of getting_signal (tuner.py lines 214-225) as
it would run on given normalization constants: for each channel that is
a qcodes Parameter, normalize the raw reading with the stored (min,
max) and flag presence when it is strictly above the channel threshold;
a single channel above threshold makes the result true. -/
def signalLoop (dev : SPDevice) (normConsts : String → ℚ × ℚ)
    (thresholds : String → ℚ) (channels : List String) : Bool :=
  channels.foldl
    (fun have_signal c =>
      if dev.isParam c then
        let cs := normConsts c
        let signal := (dev.raw c - cs.1) / (cs.2 - cs.1)
        if thresholds c < signal then true else have_signal
      else have_signal)
    false

/-- A device with channels a (raw 1) and b (raw 2), both qcodes
Parameters. -/
def spDemo : SPDevice :=
  { channels := ["a", "b"], isParam := fun _ => true,
    raw := fun c => if c = "b" then 2 else 1 }

/-- Stored constants (0, 2) for every channel: channel a normalizes to
1/2, channel b to 1. -/
def spConsts : String → ℚ × ℚ := fun _ => (0, 2)

/-- Threshold 1/2 for every channel. -/
def spThresholds : String → ℚ := fun _ => 1 / 2

/-- Claim C8, behaviour at the failing input: every call of
getting_signal raises AttributeError at line 210 (the Tuner has no
normalization_constants), before any channel is compared.  The
comparison loop itself, run on given constants, does behave as the
claim describes: a channel whose normalized reading exactly equals its
threshold (channel a: 1/2) yields false, and one channel strictly above
its threshold (channel b: 1 > 1/2) makes the whole result true. -/
theorem C8_getting_signal_raises_attribute_error :
    (∀ (t : TunerSt) (dev : SPDevice) (th : String → ℚ)
        (chk : Option (List String)),
      getting_signal t dev th chk = .error .attributeError) ∧
      signalLoop spDemo spConsts spThresholds ["a"] = false ∧
      signalLoop spDemo spConsts spThresholds ["a", "b"] = true := by
  refine ⟨fun _ _ _ _ => rfl, ?_, ?_⟩
  · have ha : ¬ ((1 : ℚ) / 2 < ((1 : ℚ) - 0) / (2 - 0)) := by norm_num
    simp [signalLoop, spDemo, spConsts, spThresholds, List.foldl, ha]
  · simp only [signalLoop, spDemo, spConsts, spThresholds, List.foldl]
    norm_num

/-! characterize_gates (tuner.py lines 228-275). -/

/-- Hardware-mutation events the orchestrator can issue on gates. -/
inductive CGEv where
  | setRange (g : ℕ) (r : ℚ × ℚ)
  | setVoltage (g : ℕ) (v : ℚ)
deriving DecidableEq, Repr

/-- The state characterize_gates runs on: the per-gate dc voltages,
current valid ranges and safety ranges of the device arena, the tuner
data-settings bundle, and the trace of gate mutations issued so far. -/
structure CGState where
  voltages : Store ℚ
  ranges : Store (ℚ × ℚ)
  safety : ℕ → ℚ × ℚ
  dataSettings : Settings ℕ
  trace : List CGEv

/-- gate.current_valid_range(r): write one gate range and record the
event. -/
def cgSetRange (s : CGState) (g : ℕ) (r : ℚ × ℚ) : CGState :=
  { s with ranges := upd s.ranges g r, trace := s.trace ++ [CGEv.setRange g r] }

/-- The widening loop (tuner.py lines 247-249): each listed gate has
its current valid range set to its safety range. -/
def cgWiden (gs : List ℕ) (s : CGState) : CGState :=
  gs.foldl (fun st g => cgSetRange st g (st.safety g)) s

/-- The restoration loop of the set_back_valid_ranges finally block
(tuner.py lines 59-61) over the snapshot pairs, on the orchestrator
state.  Setter failures are not at issue in this claim, so the setters
always succeed here. -/
def cgRestoreRanges (saved : List (ℕ × (ℚ × ℚ))) (s : CGState) : CGState :=
  saved.foldl (fun st p => cgSetRange st p.1 p.2) s

/-- A call scenario for characterize_gates: the gates argument (as
arena indices), the use_safety_ranges flag, whether a pinchoff
classifier is registered, the device normalization constants injected
by the settings overlay (opaque payload), and the collaborator outcome
of the i-th run_stage call. -/
structure CGScenario where
  gatesArg : List ℕ
  useSafetyRanges : Bool
  hasPinchoff : Bool
  normConsts : ℕ
  stageResult : ℕ → Except PyErr Bool

/-- The per-gate sweep loop (tuner.py lines 253-271).

Modelled from the spec: the single-sweep collaborator
GateCharacterization1D.run_stage invoked at line 265 is not part of
this repository snapshot; per the specification it is a black box
taking a configuration and returning (success, termination_reasons,
result), with no effect on the gate state owned by this core.  A
collaborator error at call i stops the loop and propagates; an
ordinary failure (success = False) is recorded as an entry and the
loop continues. -/
def cgStageLoop (sc : CGScenario) :
    List (ℕ × ℕ) → List Entry → Option PyErr × List Entry
  | [], acc => (none, acc)
  | (i, g) :: rest, acc =>
    match sc.stageResult i with
    | .error e => (some e, acc)
    | .ok b => cgStageLoop sc rest (acc ++ [⟨g, b⟩])

/-- characterize_gates (tuner.py lines 228-275): raise KeyError before
any hardware mutation when no pinchoff classifier is registered (lines
243-244); otherwise snapshot the listed gate ranges
(set_back_valid_ranges, line 246), widen to safety ranges if requested
(lines 247-249), inject the device normalization constants into the
data-settings bundle (device_specific_settings, line 252), run one
sweep per listed gate (lines 253-271), then unwind both scopes: merge
the saved bundle back (by dict.update, as in C3) and restore every
snapshotted range in list order.  The result triple is the final
state, the escaped error if any, and the TuningResult entry list on
success. -/
def cgAfterWiden (sc : CGScenario) (s : CGState) : CGState :=
  if sc.useSafetyRanges then cgWiden sc.gatesArg s else s

/-- The state after the widening step, the settings-overlay injection
(line 252 entering device_specific_settings) and the overlay unwind
(its finally block, merging the saved bundle back by dict.update): the
sweep loop in between does not mutate this state. -/
def cgAfterBody (sc : CGScenario) (s : CGState) : CGState :=
  let s1 := cgAfterWiden sc s
  let s2 := { s1 with
    dataSettings := dictUpdate s1.dataSettings (normConstsOverlay sc.normConsts) }
  { s2 with dataSettings := dictUpdate s2.dataSettings s1.dataSettings }

def characterize_gates (sc : CGScenario) (s : CGState) :
    CGState × Option PyErr × Option (List Entry) :=
  if ¬ sc.hasPinchoff then (s, some PyErr.keyError, none)
  else
    let saved := sc.gatesArg.map (fun g => (g, s.ranges g))
    let res := cgStageLoop sc sc.gatesArg.enum []
    (cgRestoreRanges saved (cgAfterBody sc s), res.1,
      match res.1 with
      | some _ => none
      | none => some res.2)

/-- Range restoration never touches dc voltages. -/
theorem cgRestoreRanges_voltages (pairs : List (ℕ × (ℚ × ℚ))) :
    ∀ s : CGState, (cgRestoreRanges pairs s).voltages = s.voltages := by
  induction pairs with
  | nil => intro s; rfl
  | cons p rest ih =>
    intro s
    exact ih (cgSetRange s p.1 p.2)

/-- Range restoration never touches safety ranges. -/
theorem cgRestoreRanges_safety (pairs : List (ℕ × (ℚ × ℚ))) :
    ∀ s : CGState, (cgRestoreRanges pairs s).safety = s.safety := by
  induction pairs with
  | nil => intro s; rfl
  | cons p rest ih =>
    intro s
    exact ih (cgSetRange s p.1 p.2)

/-- A gate outside the snapshot keys keeps its range across
restoration. -/
theorem cgRestoreRanges_not_mem (pairs : List (ℕ × (ℚ × ℚ))) :
    ∀ (s : CGState) (x : ℕ), x ∉ pairs.map Prod.fst →
      (cgRestoreRanges pairs s).ranges x = s.ranges x := by
  induction pairs with
  | nil => intro s x _; rfl
  | cons p rest ih =>
    intro s x hx
    simp only [List.map_cons, List.mem_cons] at hx
    push_neg at hx
    have step : cgRestoreRanges (p :: rest) s
        = cgRestoreRanges rest (cgSetRange s p.1 p.2) := rfl
    rw [step, ih (cgSetRange s p.1 p.2) x hx.2]
    simp [cgSetRange, upd, hx.1]

/-- Every gate among the snapshot keys ends at its snapshot value when
all pairs carry the value f of their key. -/
theorem cgRestoreRanges_mem (f : ℕ → ℚ × ℚ) (pairs : List (ℕ × (ℚ × ℚ))) :
    ∀ (s : CGState) (x : ℕ), (∀ p ∈ pairs, p.2 = f p.1) →
      x ∈ pairs.map Prod.fst → (cgRestoreRanges pairs s).ranges x = f x := by
  induction pairs with
  | nil => intro s x _ hx; simp at hx
  | cons p rest ih =>
    intro s x hval hx
    have hv : p.2 = f p.1 := hval p (List.mem_cons_self _ _)
    simp only [List.map_cons, List.mem_cons] at hx
    have step : cgRestoreRanges (p :: rest) s
        = cgRestoreRanges rest (cgSetRange s p.1 p.2) := rfl
    rw [step]
    by_cases hxr : x ∈ rest.map Prod.fst
    · exact ih (cgSetRange s p.1 p.2) x
        (fun q hq => hval q (List.mem_cons_of_mem _ hq)) hxr
    · rcases hx with hx | hx
      · rw [cgRestoreRanges_not_mem rest (cgSetRange s p.1 p.2) x hxr]
        simp [cgSetRange, upd, hx, hv]
      · exact absurd hx hxr

/-- Range restoration only appends setRange events to the trace. -/
theorem cgRestoreRanges_trace (pairs : List (ℕ × (ℚ × ℚ))) :
    ∀ (s : CGState) (ev : CGEv), ev ∈ (cgRestoreRanges pairs s).trace →
      ev ∈ s.trace ∨ ∃ g r, ev = CGEv.setRange g r := by
  induction pairs with
  | nil => intro s ev h; exact Or.inl h
  | cons p rest ih =>
    intro s ev h
    have step : cgRestoreRanges (p :: rest) s
        = cgRestoreRanges rest (cgSetRange s p.1 p.2) := rfl
    rw [step] at h
    rcases ih (cgSetRange s p.1 p.2) ev h with h2 | h2
    · have : ev ∈ s.trace ++ [CGEv.setRange p.1 p.2] := h2
      rcases List.mem_append.mp this with h3 | h3
      · exact Or.inl h3
      · exact Or.inr ⟨p.1, p.2, List.mem_singleton.mp h3⟩
    · exact Or.inr h2

/-- The widening loop is the restoration loop run on the pairs (gate,
its safety range): the safety ranges are immutable state. -/
theorem cgWiden_eq (gs : List ℕ) :
    ∀ s : CGState, cgWiden gs s
      = cgRestoreRanges (gs.map (fun g => (g, s.safety g))) s := by
  induction gs with
  | nil => intro s; rfl
  | cons g rest ih =>
    intro s
    exact ih (cgSetRange s g (s.safety g))

/-- Claim C10: for every device state and call scenario,
characterize_gates leaves every gate dc voltage unchanged on every
exit path (missing-classifier error, collaborator error mid-loop, or
success), restores every gate current valid range on exit, and never
issues a voltage-set on any gate: every gate mutation it ever performs
is a range write. -/
theorem C10_characterize_gates_frame (sc : CGScenario) (s : CGState) :
    (∀ g, (characterize_gates sc s).1.voltages g = s.voltages g) ∧
      (∀ g, (characterize_gates sc s).1.ranges g = s.ranges g) ∧
      (∀ ev ∈ (characterize_gates sc s).1.trace,
        ev ∈ s.trace ∨ ∃ g r, ev = CGEv.setRange g r) := by
  have hkeys : ∀ f : ℕ → ℚ × ℚ,
      (sc.gatesArg.map (fun g => (g, f g))).map Prod.fst = sc.gatesArg := by
    intro f
    rw [List.map_map]
    exact List.map_id _
  by_cases hp : sc.hasPinchoff
  · have hcond : ¬ ¬ sc.hasPinchoff = true := fun h => h hp
    have hres : (characterize_gates sc s).1
        = cgRestoreRanges (sc.gatesArg.map (fun g => (g, s.ranges g)))
          (cgAfterBody sc s) := by
      simp only [characterize_gates, if_neg hcond]
    have hw_v : (cgAfterWiden sc s).voltages = s.voltages := by
      unfold cgAfterWiden
      by_cases hu : sc.useSafetyRanges
      · rw [if_pos hu, cgWiden_eq, cgRestoreRanges_voltages]
      · rw [if_neg hu]
    have hw_r_not : ∀ x, x ∉ sc.gatesArg →
        (cgAfterWiden sc s).ranges x = s.ranges x := by
      intro x hx
      unfold cgAfterWiden
      by_cases hu : sc.useSafetyRanges
      · rw [if_pos hu, cgWiden_eq,
          cgRestoreRanges_not_mem _ _ x (by rw [hkeys]; exact hx)]
      · rw [if_neg hu]
    have hw_tr : ∀ ev ∈ (cgAfterWiden sc s).trace,
        ev ∈ s.trace ∨ ∃ g r, ev = CGEv.setRange g r := by
      intro ev hev
      unfold cgAfterWiden at hev
      by_cases hu : sc.useSafetyRanges
      · rw [if_pos hu, cgWiden_eq] at hev
        exact cgRestoreRanges_trace _ _ ev hev
      · rw [if_neg hu] at hev
        exact Or.inl hev
    have hb_v : (cgAfterBody sc s).voltages = (cgAfterWiden sc s).voltages := rfl
    have hb_r : (cgAfterBody sc s).ranges = (cgAfterWiden sc s).ranges := rfl
    have hb_tr : (cgAfterBody sc s).trace = (cgAfterWiden sc s).trace := rfl
    refine ⟨?_, ?_, ?_⟩
    · intro g
      rw [hres, cgRestoreRanges_voltages, hb_v, hw_v]
    · intro g
      rw [hres]
      by_cases hg : g ∈ sc.gatesArg
      · refine cgRestoreRanges_mem s.ranges _ _ g ?_ (by rw [hkeys]; exact hg)
        intro p hq
        rcases List.mem_map.mp hq with ⟨x, _, hpx⟩
        rw [← hpx]
      · rw [cgRestoreRanges_not_mem _ _ g (by rw [hkeys]; exact hg), hb_r,
          hw_r_not g hg]
    · intro ev hev
      rw [hres] at hev
      rcases cgRestoreRanges_trace _ _ ev hev with h2 | h2
      · rw [hb_tr] at h2
        exact hw_tr ev h2
      · exact Or.inr h2
  · have hres : (characterize_gates sc s).1 = s := by
      simp only [characterize_gates, if_pos hp]
    exact ⟨fun g => by rw [hres], fun g => by rw [hres],
      fun ev hev => Or.inl (by rw [hres] at hev; exact hev)⟩
